import Mathlib

/-!
Shallow embedding of the yuxuetr/rag-framework frontend workflows
(src/frontend/src/pages/LoadFile.tsx and src/frontend/src/pages/ParseFile.tsx).

The two pages are thin controllers: local form state, a guarded
multipart POST, and a pure projection of the JSON response into a
rendered list.  We embed:
  * filename-based file-type inference (handleFileChange / handleFileSelect),
  * the file-type → loading-method effect hooks,
  * the multipart body builders,
  * the submission handlers as functions from form state and a fetch
    outcome to an event trace plus the new state,
  * the delete handler, and
  * the chunk / content-block renderers as pure projections.

JavaScript falsiness on the fields involved is modelled explicitly:
a missing `File` is `Option.none`, an empty string is falsy, a string
field read through `||` falls back when empty.
-/

namespace RagFrontend

/-- Model of JavaScript `String.prototype.toLowerCase` on filenames:
per-character lowering (ASCII in Lean's `Char.toLower`). -/
def lowerStr (s : String) : String := ⟨s.data.map Char.toLower⟩

/-- Model of JavaScript `String.prototype.endsWith`, via list suffix. -/
def strEndsWith (s suffix : String) : Bool :=
  suffix.data.isSuffixOf s.data

/-- Model of `fileName.split('.')[0]`: the characters before the first dot. -/
def firstDotSegment (s : String) : String :=
  ⟨s.data.takeWhile (fun c => c ≠ '.')⟩

/- ---------------------------------------------------------------
   File-type inference
   --------------------------------------------------------------- -/

/-- LoadFile.tsx `handleFileChange` (lines 107-123): file type from the
lowercased name, precedence .pdf, .txt, .csv, .md/.markdown, else "other". -/
def loadInferFileType (name : String) : String :=
  let fileName := lowerStr name
  if strEndsWith fileName ".pdf" then "pdf"
  else if strEndsWith fileName ".txt" then "txt"
  else if strEndsWith fileName ".csv" then "csv"
  else if strEndsWith fileName ".md" || strEndsWith fileName ".markdown" then "md"
  else "other"

/-- LoadFile.tsx `handleFileChange`: the loading method set alongside the
file type ("" for unknown types). -/
def loadInferLoadingMethod (name : String) : String :=
  let fileName := lowerStr name
  if strEndsWith fileName ".pdf" then "pymupdf"
  else if strEndsWith fileName ".txt" then "basic"
  else if strEndsWith fileName ".csv" then "pandas"
  else if strEndsWith fileName ".md" || strEndsWith fileName ".markdown" then "basic"
  else ""

/-- ParseFile.tsx `handleFileSelect` (lines 94-103): precedence .pdf,
.md/.markdown (named "markdown"), .txt, and default "pdf". -/
def parseInferFileType (name : String) : String :=
  let fileName := lowerStr name
  if strEndsWith fileName ".pdf" then "pdf"
  else if strEndsWith fileName ".md" || strEndsWith fileName ".markdown" then "markdown"
  else if strEndsWith fileName ".txt" then "txt"
  else "pdf"

/- ---------------------------------------------------------------
   file_type → loading_method effect hooks
   --------------------------------------------------------------- -/

/-- LoadFile.tsx `useEffect` on fileType (lines 73-82): reset the loading
method to the default for the new type; unknown types leave it alone. -/
def loadFileTypeEffect (fileType method : String) : String :=
  if fileType = "pdf" then "pymupdf"
  else if fileType = "txt" ∨ fileType = "md" then "basic"
  else if fileType = "csv" then "pandas"
  else method

/-- ParseFile.tsx `useEffect` on fileType (lines 38-46). -/
def parseFileTypeEffect (fileType method : String) : String :=
  if fileType = "pdf" then "pymupdf"
  else if fileType = "markdown" ∨ fileType = "md" then "basic"
  else if fileType = "txt" then "basic"
  else method

/- ---------------------------------------------------------------
   Data model (response payloads and form state)
   --------------------------------------------------------------- -/

/-- LoadFile.tsx `chunkingOptions` state (lines 54-61). -/
structure ChunkingOptions where
  maxCharacters : Nat
  newAfterNChars : Nat
  combineTextUnderNChars : Nat
  overlap : Nat
  overlapAll : Bool
  multiPageSections : Bool
deriving DecidableEq, Repr

/-- JavaScript `String(bool)`. -/
def boolStr (b : Bool) : String := if b then "true" else "false"

/-- Model of `JSON.stringify(chunkingOptions)`: keys in object-literal order. -/
def jsonChunkingOptions (o : ChunkingOptions) : String :=
  "\x7b\"maxCharacters\":" ++ toString o.maxCharacters ++
  ",\"newAfterNChars\":" ++ toString o.newAfterNChars ++
  ",\"combineTextUnderNChars\":" ++ toString o.combineTextUnderNChars ++
  ",\"overlap\":" ++ toString o.overlap ++
  ",\"overlapAll\":" ++ boolStr o.overlapAll ++
  ",\"multiPageSections\":" ++ boolStr o.multiPageSections ++ "\x7d"

/-- The `ChunkMetadata` object as the renderer reads it: every field may be absent at
runtime (the renderer accesses all of them through `?.`). -/
structure ChunkMetadata where
  chunk_id : Option String
  page_number : Option Nat
  word_count : Option Nat
  page_range : Option String
deriving DecidableEq, Repr

/-- A `Chunk` from LoadFile.tsx: `content`, optional `text`, metadata object
itself reached through `chunk.metadata?.`. -/
structure Chunk where
  content : String
  text : Option String
  metadata : Option ChunkMetadata
deriving DecidableEq, Repr

/-- The `LoadedContent` response payload; fields the renderer guards with
`|| 'N/A'` are optional here. -/
structure LoadedContent where
  chunks : List Chunk
  total_pages : Option Nat
  total_chunks : Option Nat
  loading_method : Option String
  chunking_method : Option String
  timestamp : Option String
  document_type : Option String
deriving DecidableEq, Repr

/-- A `Document` listing entry (name plus a metadata blob we keep opaque
to the fields the delete handler needs). -/
structure Document where
  name : String
deriving DecidableEq, Repr

/-- Per-block metadata from ParseFile.tsx (`content_type`, plus the
image- and table-specific fields the renderer reads). -/
structure BlockMetadata where
  content_type : Option String
  image_id : Option String
  extraction_method : Option String
  table_id : Option String
  rows : Option Nat
  columns : Option Nat
deriving DecidableEq, Repr

/-- A `ParsedContent.content` entry from ParseFile.tsx; the metadata object
is optional (the renderer guards with `item.metadata &&`). -/
structure ContentBlock where
  type : String
  content : String
  page : Option Nat
  title : Option String
  metadata : Option BlockMetadata
deriving DecidableEq, Repr

/-- The `ParsedContent` response payload. -/
structure ParsedContent where
  total_pages : Option Nat
  parsing_method : Option String
  timestamp : Option String
  file_type : Option String
  content : List ContentBlock
deriving DecidableEq, Repr

/-- LoadFile.tsx component state (the `useState` hooks). A file input is
modelled by the file's name; `none` is "no file selected". -/
structure LoadState where
  file : Option String
  fileType : String
  loadingMethod : String
  encoding : String
  delimiter : String
  usePandas : Bool
  unstructuredStrategy : String
  chunkingStrategy : String
  chunkingOptions : ChunkingOptions
  loadedContent : Option LoadedContent
  status : String
  documents : List Document
  activeTab : String
  selectedDoc : Option Document
deriving DecidableEq, Repr

/-- ParseFile.tsx component state. -/
structure ParseState where
  file : Option String
  fileType : String
  loadingMethod : String
  parsingOption : String
  extractImages : Bool
  extractTables : Bool
  parsedContent : Option ParsedContent
  status : String
  docName : String
  isProcessed : Bool
deriving DecidableEq, Repr

/-- The initial LoadFile state (useState defaults, lines 46-66). -/
def loadInitialState : LoadState :=
  { file := none, fileType := "pdf", loadingMethod := "pymupdf"
    encoding := "utf-8", delimiter := ",", usePandas := true
    unstructuredStrategy := "fast", chunkingStrategy := "basic"
    chunkingOptions :=
      { maxCharacters := 4000, newAfterNChars := 3000
        combineTextUnderNChars := 500, overlap := 200
        overlapAll := false, multiPageSections := false }
    loadedContent := none, status := "", documents := []
    activeTab := "preview", selectedDoc := none }

/-- The initial ParseFile state (useState defaults, lines 26-35). -/
def parseInitialState : ParseState :=
  { file := none, fileType := "pdf", loadingMethod := "pymupdf"
    parsingOption := "comprehensive", extractImages := true
    extractTables := true, parsedContent := none, status := ""
    docName := "", isProcessed := false }

/-- LoadFile.tsx `handleFileChange` (lines 99-124) as a state transition,
combined with the `useEffect` that fires on the fileType change; the
handler also sets the loading method directly, to the same value. -/
def loadHandleFileChange (s : LoadState) (name : String) : LoadState :=
  { s with file := some name
           fileType := loadInferFileType name
           loadingMethod := loadInferLoadingMethod name }

/-- ParseFile.tsx `handleFileSelect` (lines 86-108) as a state transition,
combined with the `useEffect` on fileType (which resets only the loading
method; `parsingOption` is left untouched). -/
def parseHandleFileSelect (t : ParseState) (name : String) : ParseState :=
  let ft := parseInferFileType name
  { t with file := some name
           fileType := ft
           loadingMethod := parseFileTypeEffect ft t.loadingMethod
           docName := firstDotSegment (lowerStr name) }

/- ---------------------------------------------------------------
   Submission: multipart bodies, fetch outcomes, event traces
   --------------------------------------------------------------- -/

/-- Outcome of a `fetch` call: resolved with 2xx and a decoded payload,
resolved with a non-2xx status (`response.ok` false), or rejected
(network failure) with the caught error's message. -/
inductive FetchOutcome (α : Type) where
  | success (data : α)
  | httpError (code : Nat)
  | networkError (msg : String)
deriving DecidableEq, Repr

/-- The multipart body built by LoadFile.tsx `handleProcess`
(lines 136-156), as an ordered list of (field name, value) appends.
The `file` part carries the File object; we record its name. -/
def loadBuildBody (s : LoadState) : List (String × String) :=
  [("file", s.file.getD ""), ("file_type", s.fileType),
   ("loading_method", s.loadingMethod)] ++
  (if s.fileType = "pdf" ∧ s.loadingMethod = "unstructured" then
    [("strategy", s.unstructuredStrategy),
     ("chunking_strategy", s.chunkingStrategy),
     ("chunking_options", jsonChunkingOptions s.chunkingOptions)]
  else if s.fileType = "txt" ∨ s.fileType = "md" then
    [("encoding", s.encoding)] ++
    (if s.chunkingStrategy ≠ "" then
      [("chunking_strategy", s.chunkingStrategy),
       ("chunking_options", jsonChunkingOptions s.chunkingOptions)]
    else [])
  else if s.fileType = "csv" then
    [("delimiter", s.delimiter), ("encoding", s.encoding),
     ("use_pandas", boolStr s.usePandas)]
  else [])

/-- The multipart body built by ParseFile.tsx `handleProcess`
(lines 59-65): always the same six fields, no branching. -/
def parseBuildBody (t : ParseState) : List (String × String) :=
  [("file", t.file.getD ""), ("loading_method", t.loadingMethod),
   ("parsing_option", t.parsingOption), ("file_type", t.fileType),
   ("extract_images", boolStr t.extractImages),
   ("extract_tables", boolStr t.extractTables)]

/-- Observable events of one LoadFile `handleProcess` / delete run, in
program order.  `responseReceived` marks the resolution of the awaited
fetch; `fetchDocuments` is the fire-and-forget list refresh. -/
inductive LoadEvent where
  | setStatus (s : String)
  | setLoadedContent (c : Option LoadedContent)
  | post (body : List (String × String))
  | responseReceived
  | fetchDocuments
  | setActiveTab (t : String)
deriving DecidableEq, Repr

def LoadEvent.isPost : LoadEvent → Bool
  | .post _ => true
  | _ => false

/-- A view-state update: any `setXxx` React state setter. -/
def LoadEvent.isViewUpdate : LoadEvent → Bool
  | .setStatus _ => true
  | .setLoadedContent _ => true
  | .setActiveTab _ => true
  | _ => false

/-- Observable events of one ParseFile `handleProcess` run. -/
inductive ParseEvent where
  | setStatus (s : String)
  | setParsedContent (c : Option ParsedContent)
  | setIsProcessed (b : Bool)
  | post (body : List (String × String))
  | responseReceived
deriving DecidableEq, Repr

def ParseEvent.isPost : ParseEvent → Bool
  | .post _ => true
  | _ => false

def ParseEvent.isViewUpdate : ParseEvent → Bool
  | .setStatus _ => true
  | .setParsedContent _ => true
  | .setIsProcessed _ => true
  | _ => false

/-- LoadFile.tsx `handleProcess` (lines 126-177): the guard, the
pre-request status/preview updates, the single POST, and the
response-dependent updates, as an event trace plus the final state.
`fetchDocuments` is not awaited; the `documents` field is refreshed
asynchronously and is left unchanged here (the event records the call). -/
def loadHandleProcess (s : LoadState) (o : FetchOutcome LoadedContent) :
    List LoadEvent × LoadState :=
  if s.file = none ∨ s.loadingMethod = "" then
    ([.setStatus "请选择所有必需的选项"],
     { s with status := "请选择所有必需的选项" })
  else
    let body := loadBuildBody s
    let s1 := { s with status := "加载中...", loadedContent := none }
    match o with
    | .success d =>
        ([.setStatus "加载中...", .setLoadedContent none, .post body,
          .responseReceived, .setLoadedContent (some d),
          .setStatus "文件加载成功!", .fetchDocuments, .setActiveTab "preview"],
         { s1 with loadedContent := some d, status := "文件加载成功!",
                   activeTab := "preview" })
    | .httpError code =>
        ([.setStatus "加载中...", .setLoadedContent none, .post body,
          .responseReceived,
          .setStatus ("错误: HTTP error! status: " ++ toString code)],
         { s1 with status := "错误: HTTP error! status: " ++ toString code })
    | .networkError msg =>
        ([.setStatus "加载中...", .setLoadedContent none, .post body,
          .setStatus ("错误: " ++ msg)],
         { s1 with status := "错误: " ++ msg })

/-- ParseFile.tsx `handleProcess` (lines 48-84). -/
def parseHandleProcess (t : ParseState) (o : FetchOutcome ParsedContent) :
    List ParseEvent × ParseState :=
  if t.file = none ∨ t.loadingMethod = "" ∨ t.parsingOption = "" then
    ([.setStatus "请选择所有必需的选项"],
     { t with status := "请选择所有必需的选项" })
  else
    let body := parseBuildBody t
    let t1 := { t with status := "处理中...", parsedContent := none,
                       isProcessed := false }
    match o with
    | .success d =>
        ([.setStatus "处理中...", .setParsedContent none,
          .setIsProcessed false, .post body, .responseReceived,
          .setParsedContent (some d), .setStatus "处理成功完成!",
          .setIsProcessed true],
         { t1 with parsedContent := some d, status := "处理成功完成!",
                   isProcessed := true })
    | .httpError code =>
        ([.setStatus "处理中...", .setParsedContent none,
          .setIsProcessed false, .post body, .responseReceived,
          .setStatus ("错误: HTTP error! status: " ++ toString code)],
         { t1 with status := "错误: HTTP error! status: " ++ toString code })
    | .networkError msg =>
        ([.setStatus "处理中...", .setParsedContent none,
          .setIsProcessed false, .post body,
          .setStatus ("错误: " ++ msg)],
         { t1 with status := "错误: " ++ msg })

/-- LoadFile.tsx `handleDeleteDocument` (lines 179-199).  On success the
document list is re-fetched (`fetchDocuments`): the new list is whatever
the server returns (`serverDocs`), never a local splice of the old list;
the preview is cleared only when the deleted name is the selected one. -/
def handleDeleteDocument (s : LoadState) (docName : String)
    (o : FetchOutcome Unit) (serverDocs : List Document) : LoadState :=
  match o with
  | .success _ =>
      let s1 := { s with status := "文档删除成功", documents := serverDocs }
      if s.selectedDoc.any (fun d => d.name == docName) then
        { s1 with selectedDoc := none, loadedContent := none }
      else s1
  | .httpError code =>
      { s with status := "删除文档错误: HTTP error! status: " ++ toString code }
  | .networkError msg =>
      { s with status := "删除文档错误: " ++ msg }

/- ---------------------------------------------------------------
   Result rendering (pure projections)
   --------------------------------------------------------------- -/

/-- JSX `{opt && template(opt)}` for a numeric field: `undefined` renders
nothing, the falsy number 0 short-circuits and React renders "0". -/
def jsxAndNat (o : Option Nat) (f : Nat → String) : String :=
  match o with
  | none => ""
  | some 0 => "0"
  | some n => f n

/-- JSX `{opt && template(opt)}` for a string field: `undefined` renders
nothing and the falsy "" short-circuits to the empty render. -/
def jsxAndStr (o : Option String) (f : String → String) : String :=
  match o with
  | none => ""
  | some v => if v = "" then "" else f v

/-- JavaScript `v || 'N/A'` for an optional string (absent or "" falls
back to the placeholder). -/
def jsOrNA (o : Option String) : String :=
  match o with
  | none => "N/A"
  | some v => if v = "" then "N/A" else v

/-- JavaScript `v || 'N/A'` for an optional number (absent or 0 falls
back to the placeholder). -/
def jsOrNANat (o : Option Nat) : String :=
  match o with
  | none => "N/A"
  | some 0 => "N/A"
  | some n => toString n

/-- A number rendered through plain JSX interpolation (`undefined`
renders nothing). -/
def jsxNat (o : Option Nat) : String :=
  match o with
  | none => ""
  | some n => toString n

/-- A string rendered through plain JSX interpolation. -/
def jsxStr (o : Option String) : String := o.getD ""

/-- One rendered chunk block from LoadFile.tsx `renderRightPanel`
(lines 264-278): React key, header line, metadata info line, body. -/
structure RenderedChunk where
  key : String
  header : String
  info : String
  body : String
deriving DecidableEq, Repr

/-- LoadFile.tsx lines 264-278: project one `Chunk` at position `idx`.
`chunk.metadata?.chunk_id || index` falls back to the index when the id
is absent or empty; the body is `chunk.content || chunk.text`. -/
def renderChunk (idx : Nat) (c : Chunk) : RenderedChunk :=
  let cid := c.metadata.bind (fun m => m.chunk_id)
  { key :=
      match cid with
      | some i => if i = "" then toString idx else i
      | none => toString idx
    header :=
      "分块 " ++
      (match cid with
       | some i => if i = "" then toString (idx + 1) else i
       | none => toString (idx + 1)) ++ " " ++
      jsxAndNat (c.metadata.bind (fun m => m.page_number))
        (fun p => "(页 " ++ toString p ++ ")")
    info :=
      jsxAndNat (c.metadata.bind (fun m => m.word_count))
        (fun w => "词数: " ++ toString w) ++ " " ++
      jsxAndStr (c.metadata.bind (fun m => m.page_range))
        (fun r => "| 页码范围: " ++ r)
    body := if c.content = "" then (c.text.getD "") else c.content }

def renderChunksAux : Nat → List Chunk → List RenderedChunk
  | _, [] => []
  | i, c :: cs => renderChunk i c :: renderChunksAux (i + 1) cs

/-- Model of `loadedContent.chunks?.map((chunk, index) => ...)`: every chunk, in
response order, projected with its index. -/
def renderChunks (l : List Chunk) : List RenderedChunk :=
  renderChunksAux 0 l

/-- The document-info panel of LoadFile.tsx (lines 254-260): each absent
field renders the `'N/A'` placeholder. -/
def renderDocInfo (c : LoadedContent) : List String :=
  ["文档类型: " ++ jsOrNA c.document_type,
   "页数: " ++ jsOrNANat c.total_pages,
   "分块数: " ++ jsOrNANat c.total_chunks,
   "加载方法: " ++ jsOrNA c.loading_method,
   "分块方法: " ++ jsOrNA c.chunking_method,
   "处理日期: " ++ (match c.timestamp with
                    | none => "N/A"
                    | some ts => if ts = "" then "N/A" else ts)]

/-- One rendered content block from ParseFile.tsx (lines 267-296). -/
structure RenderedBlock where
  key : String
  header : String
  title : String
  body : String
  extra : String
deriving DecidableEq, Repr

/-- ParseFile.tsx lines 267-296: project one `ContentBlock` at `idx`
(the index is only the React key). -/
def renderBlock (idx : Nat) (b : ContentBlock) : RenderedBlock :=
  { key := toString idx
    header :=
      (if b.type = "image" then "图像"
       else if b.type = "table" then "表格" else "文本") ++ " - " ++
      jsxAndNat b.page (fun p => "页 " ++ toString p) ++
      jsxAndStr (b.metadata.bind (fun m => m.content_type))
        (fun ct => " - " ++ ct)
    title := jsxAndStr b.title (fun t => t)
    body := b.content
    extra :=
      match b.metadata with
      | none => ""
      | some m =>
          if b.type = "image" then
            "图像ID: " ++ jsxStr m.image_id ++ ", 提取方法: " ++
            jsxStr m.extraction_method
          else if b.type = "table" then
            "表格ID: " ++ jsxStr m.table_id ++ ", 行数: " ++
            jsxNat m.rows ++ ", 列数: " ++ jsxNat m.columns
          else "" }

def renderBlocksAux : Nat → List ContentBlock → List RenderedBlock
  | _, [] => []
  | i, b :: bs => renderBlock i b :: renderBlocksAux (i + 1) bs

/-- Model of `parsedContent.content.map((item, idx) => ...)`: every block, in
response order. -/
def renderBlocks (l : List ContentBlock) : List RenderedBlock :=
  renderBlocksAux 0 l

/-- ParseFile.tsx `renderParsingOptions` (lines 110-150): the option
values offered for each file type (txt and anything else fall to the
single-option select). -/
def parsingOptionsFor (fileType : String) : List String :=
  if fileType = "pdf" then
    ["comprehensive", "text_only", "tables_only", "images_only",
     "by_pages", "by_titles", "text_and_tables"]
  else if fileType = "markdown" then
    ["comprehensive", "text_only", "tables_only"]
  else
    ["text_only"]

/- ---------------------------------------------------------------
   Helper lemmas
   --------------------------------------------------------------- -/

theorem loadInferFileType_mem (name : String) :
    loadInferFileType name ∈ (["pdf", "txt", "csv", "md", "other"] : List String) := by
  unfold loadInferFileType
  dsimp only
  split
  · simp
  split
  · simp
  split
  · simp
  split <;> simp

theorem parseInferFileType_mem (name : String) :
    parseInferFileType name ∈ (["pdf", "markdown", "txt"] : List String) := by
  unfold parseInferFileType
  dsimp only
  split
  · simp
  split
  · simp
  split <;> simp

/- ---------------------------------------------------------------
   Claim theorems
   --------------------------------------------------------------- -/

/-- C1 (counterexample): the claim says an unmatched extension falls
through to "other" in file-type inference, citing both workflows; in
the Parse workflow `handleFileSelect` an unmatched extension falls
through to "pdf", not "other". -/
theorem C1_counterexample :
    parseInferFileType "photo.bin" = "pdf" ∧ ("pdf" : String) ≠ "other" := by
  decide

/-- C1 (amended): file-type inference is a pure deterministic function of
the name in both workflows.  In the Load workflow the precedence is pdf,
txt, csv, md/markdown with results in {pdf, txt, csv, md, other} and an
unmatched extension falling to "other"; in the Parse workflow the
precedence is pdf, md/markdown (result named "markdown"), txt, with
results in {pdf, markdown, txt} and an unmatched extension falling to
"pdf" rather than "other". -/
theorem C1_inference (name : String) :
    loadInferFileType name ∈ (["pdf", "txt", "csv", "md", "other"] : List String) ∧
    parseInferFileType name ∈ (["pdf", "markdown", "txt"] : List String) ∧
    (strEndsWith (lowerStr name) ".pdf" = false →
     strEndsWith (lowerStr name) ".txt" = false →
     strEndsWith (lowerStr name) ".csv" = false →
     strEndsWith (lowerStr name) ".md" = false →
     strEndsWith (lowerStr name) ".markdown" = false →
     loadInferFileType name = "other" ∧ parseInferFileType name = "pdf") := by
  refine ⟨loadInferFileType_mem name, parseInferFileType_mem name, ?_⟩
  intro h1 h2 h3 h4 h5
  constructor
  · unfold loadInferFileType
    dsimp only
    rw [h1, h2, h3, h4, h5]
    rfl
  · unfold parseInferFileType
    dsimp only
    rw [h1, h2, h4, h5]
    rfl

/-- C1 witness: the amended theorem applied to the unmatched name
"notes.docx". -/
theorem C1_inference_witness :
    strEndsWith (lowerStr "notes.docx") ".pdf" = false ∧
    strEndsWith (lowerStr "notes.docx") ".txt" = false ∧
    strEndsWith (lowerStr "notes.docx") ".csv" = false ∧
    strEndsWith (lowerStr "notes.docx") ".md" = false ∧
    strEndsWith (lowerStr "notes.docx") ".markdown" = false ∧
    (loadInferFileType "notes.docx" = "other" ∧
     parseInferFileType "notes.docx" = "pdf") :=
  ⟨by decide, by decide, by decide, by decide, by decide,
   (C1_inference "notes.docx").2.2 (by decide) (by decide) (by decide)
     (by decide) (by decide)⟩

/-- C7 (confirmed): whenever file_type changes, the effect hooks reset
loading_method to the canonical default for the new type: pdf→pymupdf,
txt/md→basic in both workflows, csv→pandas in the Load workflow; the
Parse workflow can never switch to csv (its inference only produces
pdf, markdown or txt), so the csv clause is vacuous there. -/
theorem C7_loading_method_reset (m name : String) :
    loadFileTypeEffect "pdf" m = "pymupdf" ∧
    loadFileTypeEffect "txt" m = "basic" ∧
    loadFileTypeEffect "md" m = "basic" ∧
    loadFileTypeEffect "csv" m = "pandas" ∧
    parseFileTypeEffect "pdf" m = "pymupdf" ∧
    parseFileTypeEffect "markdown" m = "basic" ∧
    parseFileTypeEffect "md" m = "basic" ∧
    parseFileTypeEffect "txt" m = "basic" ∧
    parseInferFileType name ∈ (["pdf", "markdown", "txt"] : List String) := by
  refine ⟨rfl, rfl, rfl, rfl, rfl, rfl, rfl, rfl, parseInferFileType_mem name⟩

/-- C10 (confirmed): both inference functions lowercase the filename
before extension matching, so any two filenames with the same lowercase
form (differing only in letter case) infer the same file_type. -/
theorem C10_case_insensitive (a b : String) (h : lowerStr a = lowerStr b) :
    loadInferFileType a = loadInferFileType b ∧
    parseInferFileType a = parseInferFileType b := by
  unfold loadInferFileType parseInferFileType
  rw [h]
  exact ⟨rfl, rfl⟩

/-- C10 witness: "REPORT.PDF" and "report.pdf" share a lowercase form and
infer the same file_type. -/
theorem C10_case_insensitive_witness :
    lowerStr "REPORT.PDF" = lowerStr "report.pdf" ∧
    loadInferFileType "REPORT.PDF" = loadInferFileType "report.pdf" ∧
    parseInferFileType "REPORT.PDF" = parseInferFileType "report.pdf" :=
  ⟨by decide,
   (C10_case_insensitive "REPORT.PDF" "report.pdf" (by decide)).1,
   (C10_case_insensitive "REPORT.PDF" "report.pdf" (by decide)).2⟩

/-- C2 (confirmed): in both workflows, a submission with the file or the
loading_method unset issues no POST, sets the (non-empty) status message
"请选择所有必需的选项", and leaves the rest of the state unchanged. -/
theorem C2_validation_guard (s : LoadState) (o : FetchOutcome LoadedContent)
    (t : ParseState) (o2 : FetchOutcome ParsedContent)
    (hs : s.file = none ∨ s.loadingMethod = "")
    (ht : t.file = none ∨ t.loadingMethod = "") :
    (loadHandleProcess s o).1.countP LoadEvent.isPost = 0 ∧
    (loadHandleProcess s o).2.status = "请选择所有必需的选项" ∧
    (loadHandleProcess s o).2.status ≠ "" ∧
    (loadHandleProcess s o).2 = { s with status := "请选择所有必需的选项" } ∧
    (parseHandleProcess t o2).1.countP ParseEvent.isPost = 0 ∧
    (parseHandleProcess t o2).2.status = "请选择所有必需的选项" ∧
    (parseHandleProcess t o2).2.status ≠ "" ∧
    (parseHandleProcess t o2).2 = { t with status := "请选择所有必需的选项" } := by
  have hct : t.file = none ∨ t.loadingMethod = "" ∨ t.parsingOption = "" := by
    rcases ht with h | h
    · exact Or.inl h
    · exact Or.inr (Or.inl h)
  unfold loadHandleProcess parseHandleProcess
  rw [if_pos hs, if_pos hct]
  exact ⟨rfl, rfl, by dsimp only; decide, rfl, rfl, rfl, by dsimp only; decide, rfl⟩

/-- C2 witness: the guard theorem at the initial states (no file
selected) with an arbitrary would-be outcome. -/
theorem C2_validation_guard_witness :
    (loadInitialState.file = none ∨ loadInitialState.loadingMethod = "") ∧
    (parseInitialState.file = none ∨ parseInitialState.loadingMethod = "") ∧
    (loadHandleProcess loadInitialState (.httpError 500)).1.countP
      LoadEvent.isPost = 0 ∧
    (parseHandleProcess parseInitialState (.httpError 500)).1.countP
      ParseEvent.isPost = 0 :=
  ⟨Or.inl rfl, Or.inl rfl,
   (C2_validation_guard loadInitialState (.httpError 500) parseInitialState
     (.httpError 500) (Or.inl rfl) (Or.inl rfl)).1,
   (C2_validation_guard loadInitialState (.httpError 500) parseInitialState
     (.httpError 500) (Or.inl rfl) (Or.inl rfl)).2.2.2.2.1⟩

/-- The field names of the Load multipart body, in append order. -/
def bodyFieldNames (s : LoadState) : List String :=
  (loadBuildBody s).map Prod.fst

/-- A populated pdf request using the default pymupdf loader. -/
def pdfPymupdfState : LoadState :=
  { loadInitialState with file := some "report.pdf" }

/-- C3 (counterexample): the claim says every populated load body carries
exactly one of the three conditional option sets; a pdf submission with
the default pymupdf loader carries none of them — only the three base
fields. -/
theorem C3_counterexample :
    bodyFieldNames pdfPymupdfState = ["file", "file_type", "loading_method"] ∧
    "strategy" ∉ bodyFieldNames pdfPymupdfState ∧
    "encoding" ∉ bodyFieldNames pdfPymupdfState ∧
    "delimiter" ∉ bodyFieldNames pdfPymupdfState := by
  decide

/-- C3 (amended): the body always starts with file, file_type,
loading_method and carries at most one conditional option set, selected
by file_type/loading_method: strategy+chunking fields only for pdf with
the unstructured loader (plain pdf loaders and type "other" add
nothing); encoding plus chunking fields for txt/md (the chunking fields
only while chunkingStrategy is non-empty, which the UI defaults to
"basic"); delimiter+encoding+use_pandas and no chunking_options for csv
— in particular a csv submission with delimiter ";" and encoding "gbk"
carries exactly those two fields plus use_pandas. -/
theorem C3_body_fields (s : LoadState) :
    (s.fileType = "pdf" → s.loadingMethod = "unstructured" →
      bodyFieldNames s = ["file", "file_type", "loading_method",
        "strategy", "chunking_strategy", "chunking_options"]) ∧
    (s.fileType = "pdf" → s.loadingMethod ≠ "unstructured" →
      bodyFieldNames s = ["file", "file_type", "loading_method"]) ∧
    ((s.fileType = "txt" ∨ s.fileType = "md") → s.chunkingStrategy ≠ "" →
      bodyFieldNames s = ["file", "file_type", "loading_method",
        "encoding", "chunking_strategy", "chunking_options"]) ∧
    ((s.fileType = "txt" ∨ s.fileType = "md") → s.chunkingStrategy = "" →
      bodyFieldNames s = ["file", "file_type", "loading_method", "encoding"]) ∧
    (s.fileType = "csv" →
      bodyFieldNames s = ["file", "file_type", "loading_method",
        "delimiter", "encoding", "use_pandas"] ∧
      "chunking_options" ∉ bodyFieldNames s) ∧
    (s.fileType ≠ "pdf" → s.fileType ≠ "txt" → s.fileType ≠ "md" →
     s.fileType ≠ "csv" →
      bodyFieldNames s = ["file", "file_type", "loading_method"]) := by
  refine ⟨?_, ?_, ?_, ?_, ?_, ?_⟩
  · intro h1 h2
    simp [bodyFieldNames, loadBuildBody, h1, h2]
  · intro h1 h2
    simp [bodyFieldNames, loadBuildBody, h1, h2]
  · intro h1 h2
    rcases h1 with h1 | h1 <;> simp [bodyFieldNames, loadBuildBody, h1, h2]
  · intro h1 h2
    rcases h1 with h1 | h1 <;> simp [bodyFieldNames, loadBuildBody, h1, h2]
  · intro h1
    simp [bodyFieldNames, loadBuildBody, h1]
  · intro h1 h2 h3 h4
    simp [bodyFieldNames, loadBuildBody, h1, h2, h3, h4]

/-- The spec's example csv submission: delimiter ";" and encoding "gbk". -/
def csvGbkState : LoadState :=
  { loadInitialState with
    file := some "data.csv"
    fileType := "csv"
    loadingMethod := "pandas"
    delimiter := ";"
    encoding := "gbk" }

/-- The state after selecting the unrecognized "photo.bin" in the Load
workflow: fileType "other", loadingMethod cleared. -/
def otherLoadState : LoadState :=
  loadHandleFileChange loadInitialState "photo.bin"

/-- C3 witness: the amended theorem applied to the csv/";"/gbk scenario
and to a type-"other" request (which adds no conditional set). -/
theorem C3_body_fields_witness :
    csvGbkState.fileType = "csv" ∧
    bodyFieldNames csvGbkState = ["file", "file_type", "loading_method",
      "delimiter", "encoding", "use_pandas"] ∧
    "chunking_options" ∉ bodyFieldNames csvGbkState ∧
    otherLoadState.fileType ≠ "pdf" ∧ otherLoadState.fileType ≠ "txt" ∧
    otherLoadState.fileType ≠ "md" ∧ otherLoadState.fileType ≠ "csv" ∧
    bodyFieldNames otherLoadState = ["file", "file_type", "loading_method"] :=
  ⟨rfl, ((C3_body_fields csvGbkState).2.2.2.2.1 rfl).1,
   ((C3_body_fields csvGbkState).2.2.2.2.1 rfl).2,
   by decide, by decide, by decide, by decide,
   (C3_body_fields otherLoadState).2.2.2.2.2 (by decide) (by decide)
     (by decide) (by decide)⟩

/-- A sample successful load payload. -/
def sampleLoaded : LoadedContent :=
  { chunks := [{ content := "hello", text := none,
                 metadata := some { chunk_id := some "c1", page_number := some 1,
                                    word_count := some 1, page_range := some "1-1" } }]
    total_pages := some 1, total_chunks := some 1
    loading_method := some "pymupdf", chunking_method := some "basic"
    timestamp := some "2025-01-01T00:00:00Z", document_type := some "pdf" }

/-- C4 (counterexample): the claim says no view state is updated before
the full response has been received; on a populated pdf submission the
very first event is already a view-state update (the status message
"加载中..."), and the preview is cleared next, while the response only
arrives at trace position 3. -/
theorem C4_counterexample :
    ((loadHandleProcess pdfPymupdfState (.success sampleLoaded)).1[0]?).map
      LoadEvent.isViewUpdate = some true ∧
    (loadHandleProcess pdfPymupdfState (.success sampleLoaded)).1[0]? =
      some (.setStatus "加载中...") ∧
    (loadHandleProcess pdfPymupdfState (.success sampleLoaded)).1[3]? =
      some .responseReceived := by
  decide

/-- C4 (amended): every submission that passes validation issues exactly
one POST, in both workflows and for every outcome.  The view-state
updates issued before the POST are exactly the loading-status message
and the clearing of the previous result (plus resetting isProcessed in
the Parse workflow); every later update follows the awaited fetch: on
success the result content, success status and tab switch come after
the full response, on a non-2xx response the error status comes after
the response, and on network failure the error status comes after the
fetch rejection (no response is ever received), as the six pinned
traces show. -/
theorem C4_single_post (s : LoadState) (t : ParseState)
    (d : LoadedContent) (c : Nat) (m : String)
    (d2 : ParsedContent) (c2 : Nat) (m2 : String)
    (hf : s.file ≠ none) (hm : s.loadingMethod ≠ "")
    (ht : t.file ≠ none) (hm2 : t.loadingMethod ≠ "") (hp : t.parsingOption ≠ "") :
    ((loadHandleProcess s (.success d)).1.countP LoadEvent.isPost = 1 ∧
     (loadHandleProcess s (.httpError c)).1.countP LoadEvent.isPost = 1 ∧
     (loadHandleProcess s (.networkError m)).1.countP LoadEvent.isPost = 1) ∧
    ((parseHandleProcess t (.success d2)).1.countP ParseEvent.isPost = 1 ∧
     (parseHandleProcess t (.httpError c2)).1.countP ParseEvent.isPost = 1 ∧
     (parseHandleProcess t (.networkError m2)).1.countP ParseEvent.isPost = 1) ∧
    (loadHandleProcess s (.success d)).1 =
      [.setStatus "加载中...", .setLoadedContent none, .post (loadBuildBody s),
       .responseReceived, .setLoadedContent (some d), .setStatus "文件加载成功!",
       .fetchDocuments, .setActiveTab "preview"] ∧
    (parseHandleProcess t (.success d2)).1 =
      [.setStatus "处理中...", .setParsedContent none, .setIsProcessed false,
       .post (parseBuildBody t), .responseReceived, .setParsedContent (some d2),
       .setStatus "处理成功完成!", .setIsProcessed true] ∧
    (loadHandleProcess s (.httpError c)).1 =
      [.setStatus "加载中...", .setLoadedContent none, .post (loadBuildBody s),
       .responseReceived,
       .setStatus ("错误: HTTP error! status: " ++ toString c)] ∧
    (loadHandleProcess s (.networkError m)).1 =
      [.setStatus "加载中...", .setLoadedContent none, .post (loadBuildBody s),
       .setStatus ("错误: " ++ m)] ∧
    (parseHandleProcess t (.httpError c2)).1 =
      [.setStatus "处理中...", .setParsedContent none, .setIsProcessed false,
       .post (parseBuildBody t), .responseReceived,
       .setStatus ("错误: HTTP error! status: " ++ toString c2)] ∧
    (parseHandleProcess t (.networkError m2)).1 =
      [.setStatus "处理中...", .setParsedContent none, .setIsProcessed false,
       .post (parseBuildBody t), .setStatus ("错误: " ++ m2)] := by
  have hcs : ¬ (s.file = none ∨ s.loadingMethod = "") := fun h => h.elim hf hm
  have hct : ¬ (t.file = none ∨ t.loadingMethod = "" ∨ t.parsingOption = "") :=
    fun h => h.elim ht (fun h2 => h2.elim hm2 hp)
  unfold loadHandleProcess parseHandleProcess
  simp only [if_neg hcs, if_neg hct]
  refine ⟨⟨?_, ?_, ?_⟩, ⟨?_, ?_, ?_⟩, ?_, ?_, ?_, ?_, ?_, ?_⟩ <;> trivial

/-- A populated ParseFile state: the initial state after selecting
"report.pdf". -/
def pdfParseState : ParseState :=
  parseHandleFileSelect parseInitialState "report.pdf"

/-- A sample successful parse payload (the spec's example: one text
block on page 1). -/
def sampleParsed : ParsedContent :=
  { total_pages := some 1, parsing_method := some "pymupdf"
    timestamp := some "2025-01-01T00:00:00Z", file_type := some "pdf"
    content := [{ type := "text", content := "...", page := some 1,
                  title := none, metadata := none }] }

/-- C4 witness: the amended theorem at populated pdf states in both
workflows, with concrete outcomes. -/
theorem C4_single_post_witness :
    pdfPymupdfState.file ≠ none ∧ pdfPymupdfState.loadingMethod ≠ "" ∧
    pdfParseState.file ≠ none ∧ pdfParseState.loadingMethod ≠ "" ∧
    pdfParseState.parsingOption ≠ "" ∧
    (loadHandleProcess pdfPymupdfState (.success sampleLoaded)).1.countP
      LoadEvent.isPost = 1 ∧
    (parseHandleProcess pdfParseState (.success sampleParsed)).1.countP
      ParseEvent.isPost = 1 :=
  ⟨by decide, by decide, by decide, by decide, by decide,
   (C4_single_post pdfPymupdfState pdfParseState sampleLoaded 404 "Failed to fetch"
     sampleParsed 404 "Failed to fetch" (by decide) (by decide) (by decide)
     (by decide) (by decide)).1.1,
   (C4_single_post pdfPymupdfState pdfParseState sampleLoaded 404 "Failed to fetch"
     sampleParsed 404 "Failed to fetch" (by decide) (by decide) (by decide)
     (by decide) (by decide)).2.1.1⟩

/-- C5 (confirmed): after a successful delete the document list is the
freshly fetched server list, independent of the old local list (no local
splice), and the preview (loadedContent) and selection are cleared
exactly when the deleted name is the currently viewed document;
otherwise both are left unchanged. -/
theorem C5_delete_refetch (s : LoadState) (n : String) (docs : List Document) :
    (handleDeleteDocument s n (.success ()) docs).documents = docs ∧
    (s.selectedDoc.any (fun d => d.name == n) = true →
      (handleDeleteDocument s n (.success ()) docs).selectedDoc = none ∧
      (handleDeleteDocument s n (.success ()) docs).loadedContent = none) ∧
    (s.selectedDoc.any (fun d => d.name == n) = false →
      (handleDeleteDocument s n (.success ()) docs).selectedDoc = s.selectedDoc ∧
      (handleDeleteDocument s n (.success ()) docs).loadedContent = s.loadedContent) := by
  unfold handleDeleteDocument
  cases h : s.selectedDoc.any (fun d => d.name == n) <;>
    simp [h]

/-- A state in which document "a" is being viewed. -/
def viewingAState : LoadState :=
  { loadInitialState with
    selectedDoc := some ⟨"a"⟩
    loadedContent := some sampleLoaded }

/-- C5 witness: deleting the viewed document "a" clears the preview while
deleting the unviewed "b" leaves it unchanged. -/
theorem C5_delete_refetch_witness :
    (viewingAState.selectedDoc.any (fun d => d.name == "a") = true ∧
      (handleDeleteDocument viewingAState "a" (.success ()) []).loadedContent
        = none) ∧
    (viewingAState.selectedDoc.any (fun d => d.name == "b") = false ∧
      (handleDeleteDocument viewingAState "b" (.success ()) []).loadedContent
        = some sampleLoaded) :=
  ⟨⟨by decide,
    ((C5_delete_refetch viewingAState "a" []).2.1 (by decide)).2⟩,
   ⟨by decide,
    ((C5_delete_refetch viewingAState "b" []).2.2 (by decide)).2⟩⟩

/-- C9 (confirmed): in both workflows a non-2xx response yields the error
status embedding the numeric HTTP code, a network failure yields the
error status carrying the caught error's message, each failing
submission still issues exactly one POST (no retry), and the rest of the
state (documents, selection, form fields) is untouched by the failure. -/
theorem C9_error_handling (s : LoadState) (t : ParseState)
    (c c2 : Nat) (m m2 : String)
    (hf : s.file ≠ none) (hm : s.loadingMethod ≠ "")
    (ht : t.file ≠ none) (hm2 : t.loadingMethod ≠ "") (hp : t.parsingOption ≠ "") :
    (loadHandleProcess s (.httpError c)).2.status =
      "错误: HTTP error! status: " ++ toString c ∧
    (loadHandleProcess s (.networkError m)).2.status = "错误: " ++ m ∧
    (loadHandleProcess s (.httpError c)).1.countP LoadEvent.isPost = 1 ∧
    (loadHandleProcess s (.networkError m)).1.countP LoadEvent.isPost = 1 ∧
    (loadHandleProcess s (.httpError c)).2.documents = s.documents ∧
    (loadHandleProcess s (.httpError c)).2.selectedDoc = s.selectedDoc ∧
    (loadHandleProcess s (.httpError c)).2.fileType = s.fileType ∧
    (loadHandleProcess s (.httpError c)).2.loadingMethod = s.loadingMethod ∧
    (parseHandleProcess t (.httpError c2)).2.status =
      "错误: HTTP error! status: " ++ toString c2 ∧
    (parseHandleProcess t (.networkError m2)).2.status = "错误: " ++ m2 ∧
    (parseHandleProcess t (.httpError c2)).1.countP ParseEvent.isPost = 1 ∧
    (parseHandleProcess t (.networkError m2)).1.countP ParseEvent.isPost = 1 := by
  have hcs : ¬ (s.file = none ∨ s.loadingMethod = "") := fun h => h.elim hf hm
  have hct : ¬ (t.file = none ∨ t.loadingMethod = "" ∨ t.parsingOption = "") :=
    fun h => h.elim ht (fun h2 => h2.elim hm2 hp)
  unfold loadHandleProcess parseHandleProcess
  simp only [if_neg hcs, if_neg hct]
  refine ⟨?_, ?_, ?_, ?_, ?_, ?_, ?_, ?_, ?_, ?_, ?_, ?_⟩ <;> trivial

/-- C9 witness: the error-handling theorem at populated pdf states with a
404 response and a "Failed to fetch" network error. -/
theorem C9_error_handling_witness :
    pdfPymupdfState.file ≠ none ∧ pdfPymupdfState.loadingMethod ≠ "" ∧
    pdfParseState.file ≠ none ∧ pdfParseState.loadingMethod ≠ "" ∧
    pdfParseState.parsingOption ≠ "" ∧
    (loadHandleProcess pdfPymupdfState (.httpError 404)).2.status =
      "错误: HTTP error! status: " ++ toString 404 ∧
    (parseHandleProcess pdfParseState (.networkError "Failed to fetch")).2.status =
      "错误: " ++ "Failed to fetch" :=
  ⟨by decide, by decide, by decide, by decide, by decide,
   (C9_error_handling pdfPymupdfState pdfParseState 404 404 "Failed to fetch"
     "Failed to fetch" (by decide) (by decide) (by decide) (by decide)
     (by decide)).1,
   (C9_error_handling pdfPymupdfState pdfParseState 404 404 "Failed to fetch"
     "Failed to fetch" (by decide) (by decide) (by decide) (by decide)
     (by decide)).2.2.2.2.2.2.2.2.2.1⟩

theorem renderChunksAux_length (k : Nat) (l : List Chunk) :
    (renderChunksAux k l).length = l.length := by
  induction l generalizing k with
  | nil => rfl
  | cons c cs ih => simp [renderChunksAux, ih]

theorem renderChunksAux_getElem? (k i : Nat) (l : List Chunk) :
    (renderChunksAux k l)[i]? = (l[i]?).map (renderChunk (k + i)) := by
  induction l generalizing k i with
  | nil => simp [renderChunksAux]
  | cons c cs ih =>
      cases i with
      | zero => simp [renderChunksAux]
      | succ j =>
          have h : k + 1 + j = k + (j + 1) := by omega
          simp [renderChunksAux, ih (k + 1) j, h]

theorem renderBlocksAux_length (k : Nat) (l : List ContentBlock) :
    (renderBlocksAux k l).length = l.length := by
  induction l generalizing k with
  | nil => rfl
  | cons b bs ih => simp [renderBlocksAux, ih]

theorem renderBlocksAux_getElem? (k i : Nat) (l : List ContentBlock) :
    (renderBlocksAux k l)[i]? = (l[i]?).map (renderBlock (k + i)) := by
  induction l generalizing k i with
  | nil => simp [renderBlocksAux]
  | cons b bs ih =>
      cases i with
      | zero => simp [renderBlocksAux]
      | succ j =>
          have h : k + 1 + j = k + (j + 1) := by omega
          simp [renderBlocksAux, ih (k + 1) j, h]

/-- C6 (confirmed): result rendering is a total pure projection in both
workflows: a payload with N chunks (blocks) renders exactly N rendered
blocks, position i of the output is the projection of position i of the
input (no re-sorting), a chunk with no metadata object gets the
index-based placeholder labels instead of failing, and every absent
document-info field renders the "N/A" placeholder. -/
theorem C6_render_projection (l : List Chunk) (b : List ContentBlock)
    (i : Nat) (content : String) (text : Option String) :
    (renderChunks l).length = l.length ∧
    (renderBlocks b).length = b.length ∧
    (renderChunks l)[i]? = (l[i]?).map (renderChunk i) ∧
    (renderBlocks b)[i]? = (b[i]?).map (renderBlock i) ∧
    (renderChunk i ⟨content, text, none⟩).key = toString i ∧
    (renderChunk i ⟨content, text, none⟩).header =
      "分块 " ++ toString (i + 1) ++ " " ∧
    (renderChunk i ⟨"", none, none⟩).body = "" ∧
    renderDocInfo ⟨[], none, none, none, none, none, none⟩ =
      ["文档类型: N/A", "页数: N/A", "分块数: N/A", "加载方法: N/A",
       "分块方法: N/A", "处理日期: N/A"] := by
  refine ⟨renderChunksAux_length 0 l, renderBlocksAux_length 0 b, ?_, ?_,
    rfl, ?_, rfl, rfl⟩
  · have h := renderChunksAux_getElem? 0 i l
    simpa using h
  · have h := renderBlocksAux_getElem? 0 i b
    simpa using h
  · simp [renderChunk, jsxAndNat]

/-- C8 (counterexample): the claim says the submitted parsing_option
always belongs to the current file_type's offered set; selecting
"notes.txt" from the initial state leaves the default parsingOption
"comprehensive" in place (the fileType effect resets only the loading
method), so the body submits "comprehensive", which is not in txt's
single-option set. -/
theorem C8_counterexample :
    (parseHandleFileSelect parseInitialState "notes.txt").fileType = "txt" ∧
    (parseBuildBody (parseHandleFileSelect parseInitialState "notes.txt")).lookup
      "parsing_option" = some "comprehensive" ∧
    "comprehensive" ∉ parsingOptionsFor "txt" := by
  decide

/-- C8 (amended): every parse submission that passes validation sends
exactly the six fields file, loading_method, parsing_option, file_type,
extract_images, extract_tables with no conditional branching; the
offered parsing_option choices number 7 for pdf, 3 for markdown and 1
for txt; but the submitted parsing_option is simply the current
parsingOption state, which is not forced back into the current
file_type's set when file_type changes. -/
theorem C8_parse_submission (t : ParseState) :
    (parseBuildBody t).map Prod.fst =
      ["file", "loading_method", "parsing_option", "file_type",
       "extract_images", "extract_tables"] ∧
    (parsingOptionsFor "pdf").length = 7 ∧
    (parsingOptionsFor "markdown").length = 3 ∧
    (parsingOptionsFor "txt").length = 1 ∧
    (parseBuildBody t).lookup "parsing_option" = some t.parsingOption := by
  refine ⟨rfl, by decide, by decide, by decide, rfl⟩

end RagFrontend
